import Mathlib

/-!
Shallow embedding of `src/components/text-editor/plugins/ImagePlugin/ImageComponent.tsx`.

The file embeds, as pure Lean functions, the event handlers and mutation
helpers of the interactive image node component:
`useSuspenseImage`, `onClick`, `onRightClick`, `onDelete`, `onEnter`,
`onEscape`, `setShowCaption`, `onResizeEnd`, `onResizeStart`, together with
a small model of the Lexical substrate the component uses (selections,
`$getNodeByKey`, `useLexicalNodeSelection`, the command registry) and a
discrete-time model of the `setTimeout` grace period used by `onResizeEnd`.
-/

namespace ImageComponent

/-- Model of a DOM element as seen by the handlers: a tag name plus an
identity, so that `event.target === imageRef.current` (identity comparison,
used by `onClick`) and `event.target.tagName === "IMG"` (tag comparison,
used by `onRightClick`) are distinct tests. -/
structure DomElement where
  tagName : String
  id : Nat
deriving DecidableEq

/-- Model of a mouse event: its target element and the shift-modifier flag. -/
structure MouseEvent where
  target : DomElement
  shiftKey : Bool
deriving DecidableEq

/-- Model of the Lexical editor selection: a node-level selection holding a
set of node keys (`NodeSelection`), a range selection whose `getNodes()`
returns the given keys (`RangeSelection`), or no selection (`null`). -/
inductive Selection where
  | nodeSel (keys : List String)
  | rangeSel (nodeKeys : List String)
  | noSel
deriving DecidableEq

/-- Embedding of Lexical `$isNodeSelection`. -/
def isNodeSelection : Selection → Bool
  | .nodeSel _ => true
  | _ => false

/-- Embedding of Lexical `$isRangeSelection`. -/
def isRangeSelection : Selection → Bool
  | .rangeSel _ => true
  | _ => false

/-- The keys returned by `selection.getNodes()` in the model. -/
def selectionNodes : Selection → List String
  | .nodeSel ks => ks
  | .rangeSel ks => ks
  | .noSel => []

/-- Whether `nodeKey` is in the current node-level selection; this is the
`isSelected` value produced by `useLexicalNodeSelection(nodeKey)` (external
collaborator, spec section 6: a selection API distinguishing node-level
selection from range selection). -/
def isSelectedIn (k : String) : Selection → Bool
  | .nodeSel ks => decide (k ∈ ks)
  | _ => false

/-- Embedding of `setSelected(true)` from `useLexicalNodeSelection`
(external collaborator): if the current selection is not a node selection a
fresh node selection is created, then the key is added to the set. -/
def setSelectedTrue (k : String) : Selection → Selection
  | .nodeSel ks => .nodeSel (if k ∈ ks then ks else k :: ks)
  | _ => .nodeSel [k]

/-- Embedding of `setSelected(false)` from `useLexicalNodeSelection`
(external collaborator): the key is deleted from the node-selection set;
a non-node selection is left alone. -/
def setSelectedFalse (k : String) : Selection → Selection
  | .nodeSel ks => .nodeSel (ks.filter (fun j => !(j == k)))
  | s => s

/-- Embedding of `clearSelection` from `useLexicalNodeSelection` (external
collaborator): when the current selection is a node selection its key set is
cleared; otherwise nothing happens. -/
def clearSelection : Selection → Selection
  | .nodeSel _ => .nodeSel []
  | s => s

/-! ## AssetLoadGate: `imageCache` and `useSuspenseImage` (source lines 44-60) -/

/-- State of the module-level image cache plus an instrumentation trace:
`loaded` embeds the `imageCache` set (sources whose load completed), and
`loadsStarted` records one entry per underlying `new Image()` load the code
has started, so load-count claims can be stated. -/
structure GateState where
  loaded : List String
  loadsStarted : List String
deriving DecidableEq

/-- Embedding of `useSuspenseImage(src)`: when `src` is absent from
`imageCache` the code throws a promise whose executor constructs a fresh
`Image` and assigns `img.src`, i.e. starts one new underlying load; the
returned flag records whether the call suspended (threw). When `src` is in
the cache the call completes immediately and starts nothing. -/
def useSuspenseImage (src : String) (s : GateState) : GateState × Bool :=
  if src ∈ s.loaded then (s, false)
  else ({ s with loadsStarted := src :: s.loadsStarted }, true)

/-- Embedding of the `img.onload` callback inside `useSuspenseImage`: it adds
the source to `imageCache` (and resolves the thrown promise). -/
def onImageLoad (src : String) (s : GateState) : GateState :=
  { s with loaded := src :: s.loaded }

/-- Number of underlying loads started so far for a given source. -/
def loadsFor (src : String) (s : GateState) : Nat :=
  s.loadsStarted.count src

/-! ## Document model: `$getNodeByKey`, `$isImageNode`, node mutations -/

/-- Width/height values of the node: the `"inherit"` sentinel or a pixel
number, as in the component's `width`/`height` props. -/
inductive Dim where
  | inherit
  | px (n : Int)
deriving DecidableEq

/-- A document node as far as this component mutates it: its key, whether it
is an image node (`$isImageNode`), its dimensions and its `showCaption`
attribute. -/
structure DocNode where
  key : String
  isImage : Bool
  width : Dim
  height : Dim
  showCaption : Bool
deriving DecidableEq

/-- Embedding of Lexical `$getNodeByKey`: resolve a key in the current
document; `none` models the `null` result when the node was deleted. -/
def getNodeByKey (k : String) (doc : List DocNode) : Option DocNode :=
  doc.find? (fun n => n.key == k)

/-- Embedding of `$isImageNode` applied to a possibly-null node: `null` is
not an image node. -/
def isImageNode : Option DocNode → Bool
  | some n => n.isImage
  | none => false

/-- Embedding of `node.remove()` for the node with the given key. -/
def removeNode (k : String) (doc : List DocNode) : List DocNode :=
  doc.filter (fun n => !(n.key == k))

/-- Embedding of `node.setWidthAndHeight(nextWidth, nextHeight)`. -/
def setWidthAndHeight (k : String) (w h : Dim) (doc : List DocNode) : List DocNode :=
  doc.map (fun n => if n.key == k then { n with width := w, height := h } else n)

/-- Embedding of `setShowCaption` (source lines 303-310): inside
`editor.update`, resolve the key and, only if it is an image node, set its
`showCaption` attribute to `true`; otherwise the document is untouched. -/
def setShowCaption (k : String) (doc : List DocNode) : List DocNode :=
  if isImageNode (getNodeByKey k doc) then
    doc.map (fun n => if n.key == k then { n with showCaption := true } else n)
  else doc

/-! ## onDelete (source lines 130-143) -/

/-- Result of the delete/backspace handler: the document after the handler,
whether `event.preventDefault()` was called, and the boolean the handler
returns to the command bus. -/
structure DeleteResult where
  doc : List DocNode
  preventDefault : Bool
  handled : Bool
deriving DecidableEq

/-- Embedding of `onDelete`: when `isSelected` and the current selection is a
node selection, it prevents the default, resolves the key, and removes the
node if it resolves to an image node; in every case it returns `false` to the
command bus. -/
def onDelete (k : String) (isSelected : Bool) (sel : Selection)
    (doc : List DocNode) : DeleteResult :=
  if isSelected && isNodeSelection sel then
    { doc := if isImageNode (getNodeByKey k doc) then removeNode k doc else doc
      preventDefault := true
      handled := false }
  else
    { doc := doc, preventDefault := false, handled := false }

/-! ## onEnter and onEscape (source lines 145-193) -/

/-- Where input focus sits in the model: the root editing surface, the nested
caption editor, the options button rendered by `ImageResizer`, or anywhere
else. -/
inductive Focus where
  | root
  | caption
  | button
  | other
deriving DecidableEq

/-- Result of the enter handler: the selection after the handler, the focus
location after the handler, whether default was prevented, and the returned
boolean. -/
structure EnterResult where
  selection : Selection
  focus : Focus
  preventDefault : Bool
  handled : Bool
deriving DecidableEq

/-- Embedding of `onEnter`: when this node is selected, the latest selection
is a node selection and `getNodes()` has exactly one element, then with
`showCaption` the handler clears the document selection (`$setSelection(null)`)
and focuses the nested caption editor; without `showCaption` it focuses the
options button, but only when `buttonRef.current` is non-null
(`buttonMounted`) and the button is not already `document.activeElement`.
In every other case the handler declines. -/
def onEnter (isSelected : Bool) (latestSelection : Selection) (showCaption : Bool)
    (buttonMounted : Bool) (focus : Focus) : EnterResult :=
  if isSelected && isNodeSelection latestSelection
      && (selectionNodes latestSelection).length == 1 then
    if showCaption then
      { selection := .noSel, focus := .caption, preventDefault := true, handled := true }
    else if buttonMounted && !(focus == .button) then
      { selection := latestSelection, focus := .button, preventDefault := true, handled := true }
    else
      { selection := latestSelection, focus := focus, preventDefault := false, handled := false }
  else
    { selection := latestSelection, focus := focus, preventDefault := false, handled := false }

/-- Result of the escape handler: the selection and focus after the handler
and the returned boolean. -/
structure EscapeResult where
  selection : Selection
  focus : Focus
  handled : Bool
deriving DecidableEq

/-- Embedding of `onEscape`: when the active editor recorded from the last
selection-change notification is the caption editor, or the event target is
the options button, the handler calls `$setSelection(null)`, then inside
`editor.update` calls `setSelected(true)` and focuses the editor root element
(the component is mounted in the editor, so `editor.getRootElement()` is that
root). Otherwise it declines. -/
def onEscape (k : String) (activeEditorIsCaption : Bool) (targetIsButton : Bool)
    (sel : Selection) (focus : Focus) : EscapeResult :=
  if activeEditorIsCaption || targetIsButton then
    { selection := setSelectedTrue k Selection.noSel
      focus := .root
      handled := true }
  else
    { selection := sel, focus := focus, handled := false }

/-! ## onClick (source lines 195-215) -/

/-- Result of the click handler: the selection after the handler and the
returned boolean. -/
structure ClickResult where
  selection : Selection
  handled : Bool
deriving DecidableEq

/-- Embedding of `onClick`: while `isResizing` the handler returns `true`
immediately; on a click whose target is identically this node's image
element, shift-click toggles `setSelected(!isSelected)` and a plain click
does `clearSelection()` then `setSelected(true)`; any other target is
declined. -/
def onClick (k : String) (isResizing : Bool) (imageRef : DomElement)
    (target : DomElement) (shiftKey : Bool) (sel : Selection) : ClickResult :=
  if isResizing then
    { selection := sel, handled := true }
  else if target == imageRef then
    if shiftKey then
      { selection :=
          if isSelectedIn k sel then setSelectedFalse k sel else setSelectedTrue k sel
        handled := true }
    else
      { selection := setSelectedTrue k (clearSelection sel), handled := true }
  else
    { selection := sel, handled := false }

/-! ## onRightClick and the command registry (source lines 217-235, 237-301) -/

/-- Embedding of the `contextmenu` listener `onRightClick`: reading the
latest editor state, it dispatches `RIGHT_CLICK_IMAGE_COMMAND` with the
original event exactly when the event target's `tagName` is `"IMG"` and the
latest selection is a range selection whose `getNodes()` has exactly one
element; `some ev` models that dispatch, `none` models no dispatch. -/
def onRightClick (ev : MouseEvent) (latestSelection : Selection) : Option MouseEvent :=
  if ev.target.tagName == "IMG" && isRangeSelection latestSelection
      && (selectionNodes latestSelection).length == 1 then
    some ev
  else
    none

/-- The commands this component registers handlers for in its mount effect. -/
inductive Command where
  | click
  | rightClickImage
  | keyDelete
  | keyBackspace
  | keyEnter
  | keyEscape
deriving DecidableEq

/-- The component's handler functions, as registered on the command bus. -/
inductive Handler where
  | hClick
  | hDelete
  | hEnter
  | hEscape
deriving DecidableEq

/-- Embedding of the `registerCommand` calls in the mount effect (source
lines 246-279): which handler each command is registered to, all at
`COMMAND_PRIORITY_LOW`. -/
def registeredHandler : Command → Handler
  | .click => .hClick
  | .rightClickImage => .hClick
  | .keyDelete => .hDelete
  | .keyBackspace => .hDelete
  | .keyEnter => .hEnter
  | .keyEscape => .hEscape

/-! ## Resize grace period (source lines 312-331) -/

/-- The delay, in milliseconds, passed to `setTimeout` in `onResizeEnd`
before `setIsResizing(false)` runs. -/
def resizeGraceDelayMs : Nat := 200

/-- The resizing flag together with the pending `setTimeout` countdown:
`pending = some n` means `setIsResizing(false)` fires after `n` more
milliseconds; `none` means no timeout is scheduled. -/
structure ResizeTimer where
  isResizing : Bool
  pending : Option Nat
deriving DecidableEq

/-- Advance time by one millisecond: a scheduled countdown decrements, and
when it expires the timeout body `setIsResizing(false)` runs. -/
def tick : ResizeTimer → ResizeTimer
  | ⟨r, none⟩ => ⟨r, none⟩
  | ⟨r, some n⟩ => if n ≤ 1 then ⟨false, none⟩ else ⟨r, some (n - 1)⟩

/-- Advance time by `t` milliseconds. -/
def tickN : Nat → ResizeTimer → ResizeTimer
  | 0, s => s
  | t + 1, s => tickN t (tick s)

/-- Embedding of `onResizeEnd(nextWidth, nextHeight)`: it schedules
`setIsResizing(false)` after `resizeGraceDelayMs` milliseconds, and inside
`editor.update` resolves the key and, only if it is an image node, commits
the new dimensions. -/
def onResizeEnd (k : String) (w h : Dim) (timer : ResizeTimer)
    (doc : List DocNode) : ResizeTimer × List DocNode :=
  ( { timer with pending := some resizeGraceDelayMs },
    if isImageNode (getNodeByKey k doc) then setWidthAndHeight k w h doc else doc )

/-- Embedding of `onResizeStart`: `setIsResizing(true)`. -/
def onResizeStart (timer : ResizeTimer) : ResizeTimer :=
  { timer with isResizing := true }

/-! ## Helper lemmas -/

/-- While the scheduled countdown has not expired, ticking only decrements it
and the resizing flag is untouched. -/
theorem tickN_running (t : Nat) : ∀ (n : Nat) (r : Bool), t < n →
    tickN t ⟨r, some n⟩ = ⟨r, some (n - t)⟩ := by
  induction t with
  | zero => intro n r _; simp [tickN]
  | succ s ih =>
    intro n r h
    have htick : tick ⟨r, some n⟩ = ⟨r, some (n - 1)⟩ := by
      simp only [tick]
      rw [if_neg]
      omega
    have hrec : tickN (s + 1) ⟨r, some n⟩ = tickN s (tick ⟨r, some n⟩) := rfl
    rw [hrec, htick, ih (n - 1) r (by omega)]
    have : n - 1 - s = n - (s + 1) := by omega
    rw [this]

/-- When the scheduled countdown expires, the timeout body runs and the
resizing flag is cleared. -/
theorem tickN_fires (n : Nat) (r : Bool) (hn : 1 ≤ n) :
    tickN n ⟨r, some n⟩ = ⟨false, none⟩ := by
  induction n with
  | zero => exact absurd hn (by decide)
  | succ m ih =>
    by_cases hm : m = 0
    · subst hm; rfl
    · have h1 : 1 ≤ m := Nat.one_le_iff_ne_zero.mpr hm
      have htick : tick ⟨r, some (m + 1)⟩ = ⟨r, some m⟩ := by
        simp only [tick]
        rw [if_neg (by omega)]
        simp
      have hrec : tickN (m + 1) ⟨r, some (m + 1)⟩ = tickN m (tick ⟨r, some (m + 1)⟩) := rfl
      rw [hrec, htick]
      exact ih h1

/-- After `node.remove()`, the key no longer resolves. -/
theorem getNodeByKey_removeNode (k : String) (doc : List DocNode) :
    getNodeByKey k (removeNode k doc) = none := by
  unfold getNodeByKey removeNode
  rw [List.find?_eq_none]
  intro n hn
  have h := (List.mem_filter.mp hn).2
  simp only [Bool.not_eq_true'] at h
  simp [h]

/-! ## Claim theorems -/

/-- Claim C1, counterexample: two calls of `useSuspenseImage` for the same
source `"a"` before its load completes start two underlying loads, not one —
`imageCache` records only completed loads, so the second call for the still
unresolved source starts a second `new Image()` load. -/
theorem useSuspenseImage_second_call_starts_second_load :
    loadsFor "a" ((useSuspenseImage "a" ((useSuspenseImage "a" ⟨[], []⟩).1)).1) = 2 ∧
    loadsFor "a" ((useSuspenseImage "a" ((useSuspenseImage "a" ⟨[], []⟩).1)).1) ≠ 1 := by
  decide

/-- Claim C1, amended: the cache deduplicates only completed loads. A call
for a source already in the loaded set starts no load and does not suspend;
a call for a source not yet in the loaded set always starts exactly one new
underlying load (so a second call for the same unresolved source starts a
second load) and suspends. -/
theorem useSuspenseImage_cache_dedupes_completed_loads_only
    (src : String) (s : GateState) :
    (src ∈ s.loaded → useSuspenseImage src s = (s, false)) ∧
    (src ∉ s.loaded →
      (useSuspenseImage src s).2 = true ∧
      loadsFor src (useSuspenseImage src s).1 = loadsFor src s + 1) := by
  constructor
  · intro h
    simp [useSuspenseImage, h]
  · intro h
    simp [useSuspenseImage, h, loadsFor]

/-- Witness for the amended claim C1 at the empty cache and source `"a"`. -/
theorem useSuspenseImage_cache_witness :
    ("a" : String) ∉ (⟨[], []⟩ : GateState).loaded ∧
    ((useSuspenseImage "a" ⟨[], []⟩).2 = true ∧
      loadsFor "a" (useSuspenseImage "a" ⟨[], []⟩).1 = loadsFor "a" ⟨[], []⟩ + 1) :=
  ⟨by decide,
   (useSuspenseImage_cache_dedupes_completed_loads_only "a" ⟨[], []⟩).2 (by decide)⟩

/-- Claim C2: on a click targeting this node's image element while not
resizing, a plain click yields the exclusive node selection of this node and
is handled; a shift-click flips this node's selected flag, leaves every other
node's selected flag unchanged, and is handled. -/
theorem onClick_plain_selects_exclusively_shift_toggles
    (k j : String) (imgRef : DomElement) (sel : Selection) (hj : j ≠ k) :
    onClick k false imgRef imgRef false sel =
      { selection := .nodeSel [k], handled := true } ∧
    isSelectedIn k (onClick k false imgRef imgRef true sel).selection =
      !(isSelectedIn k sel) ∧
    isSelectedIn j (onClick k false imgRef imgRef true sel).selection =
      isSelectedIn j sel ∧
    (onClick k false imgRef imgRef true sel).handled = true := by
  refine ⟨?_, ?_, ?_, ?_⟩
  · cases sel <;>
      simp [onClick, clearSelection, setSelectedTrue, isSelectedIn]
  · cases sel with
    | nodeSel ks =>
      by_cases h : k ∈ ks <;>
        simp [onClick, setSelectedTrue, setSelectedFalse, isSelectedIn, h,
          List.mem_filter]
    | rangeSel ks => simp [onClick, setSelectedTrue, isSelectedIn]
    | noSel => simp [onClick, setSelectedTrue, isSelectedIn]
  · cases sel with
    | nodeSel ks =>
      by_cases h : k ∈ ks <;>
        simp [onClick, setSelectedTrue, setSelectedFalse, isSelectedIn, h,
          List.mem_filter, hj]
    | rangeSel ks => simp [onClick, setSelectedTrue, isSelectedIn, hj]
    | noSel => simp [onClick, setSelectedTrue, isSelectedIn, hj]
  · cases sel <;> simp [onClick]

/-- Witness for claim C2 with node key `"a"`, other key `"b"`, and the
previous selection a node selection of `"b"` alone. -/
theorem onClick_select_witness :
    onClick "a" false ⟨"IMG", 1⟩ ⟨"IMG", 1⟩ false (Selection.nodeSel ["b"]) =
      { selection := .nodeSel ["a"], handled := true } ∧
    isSelectedIn "b"
      (onClick "a" false ⟨"IMG", 1⟩ ⟨"IMG", 1⟩ true (Selection.nodeSel ["b"])).selection =
      isSelectedIn "b" (Selection.nodeSel ["b"]) :=
  ⟨(onClick_plain_selects_exclusively_shift_toggles "a" "b" ⟨"IMG", 1⟩
      (Selection.nodeSel ["b"]) (by decide)).1,
   (onClick_plain_selects_exclusively_shift_toggles "a" "b" ⟨"IMG", 1⟩
      (Selection.nodeSel ["b"]) (by decide)).2.2.1⟩

/-- Claim C3: while resizing, the click handler returns `true` with the
selection untouched; after `onResizeEnd`, the resizing flag stays set for
every elapsed time strictly below `resizeGraceDelayMs` (200 ms), so a
trailing synthetic click of the same gesture is still consumed, and it is
cleared once the grace period elapses. -/
theorem resizing_click_suppressed_until_grace_period
    (k : String) (imgRef target : DomElement) (shift : Bool) (sel : Selection)
    (w h : Dim) (doc : List DocNode) (t : Nat) (ht : t < resizeGraceDelayMs) :
    onClick k true imgRef target shift sel = { selection := sel, handled := true } ∧
    (tickN t (onResizeEnd k w h ⟨true, none⟩ doc).1).isResizing = true ∧
    (tickN resizeGraceDelayMs (onResizeEnd k w h ⟨true, none⟩ doc).1).isResizing = false := by
  have hend : (onResizeEnd k w h ⟨true, none⟩ doc).1 =
      ⟨true, some resizeGraceDelayMs⟩ := rfl
  refine ⟨rfl, ?_, ?_⟩
  · rw [hend, tickN_running t resizeGraceDelayMs true ht]
  · rw [hend, tickN_fires resizeGraceDelayMs true (by decide)]

/-- Witness for claim C3 at elapsed time 7 ms. -/
theorem resizing_grace_witness :
    onClick "a" true ⟨"IMG", 1⟩ ⟨"IMG", 1⟩ false (Selection.nodeSel ["b"]) =
      { selection := .nodeSel ["b"], handled := true } ∧
    (tickN 7 (onResizeEnd "a" (Dim.px 300) (Dim.px 200) ⟨true, none⟩ []).1).isResizing = true ∧
    (tickN resizeGraceDelayMs
      (onResizeEnd "a" (Dim.px 300) (Dim.px 200) ⟨true, none⟩ []).1).isResizing = false :=
  resizing_click_suppressed_until_grace_period "a" ⟨"IMG", 1⟩ ⟨"IMG", 1⟩ false
    (Selection.nodeSel ["b"]) (Dim.px 300) (Dim.px 200) [] 7 (by decide)

/-- Claim C4: an enter command while this node is selected, the latest
selection is a node selection of exactly one node, and `showCaption` holds,
empties the document selection, focuses the caption editor, prevents the
default, and is handled. -/
theorem onEnter_caption_focus (sel : Selection) (buttonMounted : Bool) (focus : Focus)
    (hnode : isNodeSelection sel = true) (hone : (selectionNodes sel).length = 1) :
    onEnter true sel true buttonMounted focus =
      { selection := .noSel, focus := .caption, preventDefault := true, handled := true } := by
  simp [onEnter, hnode, hone]

/-- Witness for claim C4 at the node selection of the single key `"a"`. -/
theorem onEnter_caption_focus_witness :
    isNodeSelection (Selection.nodeSel ["a"]) = true ∧
    (selectionNodes (Selection.nodeSel ["a"])).length = 1 ∧
    onEnter true (Selection.nodeSel ["a"]) true false Focus.root =
      { selection := .noSel, focus := .caption, preventDefault := true, handled := true } :=
  ⟨by decide, by decide,
   onEnter_caption_focus (Selection.nodeSel ["a"]) false Focus.root (by decide) (by decide)⟩

/-- Claim C5, counterexample: with `showCaption` false and all the claim's
premises satisfied (selected, node selection of exactly one node) but the
options button not mounted (`buttonRef.current === null`), the handler
declines: it neither moves focus to the button nor reports the event as
handled. -/
theorem onEnter_button_missing_not_handled :
    onEnter true (Selection.nodeSel ["a"]) false false Focus.root =
      { selection := .nodeSel ["a"], focus := .root, preventDefault := false,
        handled := false } ∧
    ¬ ((onEnter true (Selection.nodeSel ["a"]) false false Focus.root).handled = true ∧
       (onEnter true (Selection.nodeSel ["a"]) false false Focus.root).focus =
         Focus.button) := by
  decide

/-- Claim C5, amended: with `showCaption` false, the handler moves focus to
the options button, keeps the selection unchanged, prevents the default and
reports the event handled, provided additionally that the button element is
mounted and is not already the active element. -/
theorem onEnter_button_focus_when_mounted (sel : Selection) (focus : Focus)
    (hnode : isNodeSelection sel = true) (hone : (selectionNodes sel).length = 1)
    (hfocus : focus ≠ Focus.button) :
    onEnter true sel false true focus =
      { selection := sel, focus := Focus.button, preventDefault := true,
        handled := true } := by
  simp [onEnter, hnode, hone, hfocus]

/-- Witness for the amended claim C5 with focus initially on the root. -/
theorem onEnter_button_focus_witness :
    isNodeSelection (Selection.nodeSel ["a"]) = true ∧
    Focus.root ≠ Focus.button ∧
    onEnter true (Selection.nodeSel ["a"]) false true Focus.root =
      { selection := .nodeSel ["a"], focus := Focus.button, preventDefault := true,
        handled := true } :=
  ⟨by decide, by decide,
   onEnter_button_focus_when_mounted (Selection.nodeSel ["a"]) Focus.root
     (by decide) (by decide) (by decide)⟩

/-- Claim C6: an escape command received while the caption editor is the
active editor or the options button is the event target restores the
exclusive node-level selection of this node, returns focus to the root
editing surface of the editor, and is handled; in every other case the
handler declines and changes nothing. -/
theorem onEscape_restores_selection_and_root_focus
    (k : String) (activeIsCaption targetIsButton : Bool) (sel : Selection) (focus : Focus) :
    ((activeIsCaption || targetIsButton) = true →
      onEscape k activeIsCaption targetIsButton sel focus =
        { selection := .nodeSel [k], focus := .root, handled := true }) ∧
    ((activeIsCaption || targetIsButton) = false →
      onEscape k activeIsCaption targetIsButton sel focus =
        { selection := sel, focus := focus, handled := false }) := by
  constructor <;> intro hc <;> simp [onEscape, hc, setSelectedTrue]

/-- Witness for claim C6 with the caption editor active. -/
theorem onEscape_witness :
    (true || false) = true ∧
    onEscape "a" true false (Selection.rangeSel ["b"]) Focus.caption =
      { selection := .nodeSel ["a"], focus := .root, handled := true } :=
  ⟨by decide,
   (onEscape_restores_selection_and_root_focus "a" true false
      (Selection.rangeSel ["b"]) Focus.caption).1 (by decide)⟩

/-- Claim C7, counterexample: with this node's key `"a"` and its image
element `⟨"IMG", 1⟩`, a context-menu event targeting the distinct image
element `⟨"IMG", 2⟩` while the selection is a range selection whose single
node is `"b"` still dispatches the right-click command — the code checks only
the target's tag name and the selection's node count, not that the target is
this node's visual or that the selected node is this node, refuting the
claim's "exactly when". -/
theorem onRightClick_dispatches_for_foreign_image :
    onRightClick ⟨⟨"IMG", 2⟩, false⟩ (Selection.rangeSel ["b"]) =
      some ⟨⟨"IMG", 2⟩, false⟩ ∧
    (⟨"IMG", 2⟩ : DomElement) ≠ ⟨"IMG", 1⟩ ∧
    selectionNodes (Selection.rangeSel ["b"]) ≠ ["a"] := by
  decide

/-- Claim C7, amended: the right-click command is dispatched with the
original pointer event exactly when the event target's tag name is `"IMG"`
(any image element, not necessarily this node's) and the latest selection is
a range selection whose node list has exactly one element (not necessarily
this node); and the right-click command is registered to the same `onClick`
handler as the left-click command. -/
theorem onRightClick_dispatch_condition (ev : MouseEvent) (sel : Selection) :
    (onRightClick ev sel = some ev ↔
      ev.target.tagName = "IMG" ∧ isRangeSelection sel = true ∧
        (selectionNodes sel).length = 1) ∧
    registeredHandler Command.rightClickImage = registeredHandler Command.click := by
  refine ⟨?_, rfl⟩
  by_cases h1 : ev.target.tagName = "IMG" <;>
    by_cases h2 : isRangeSelection sel = true <;>
      by_cases h3 : (selectionNodes sel).length = 1 <;>
        simp [onRightClick, h1, h2, h3]

/-- Witness for the amended claim C7 on an event targeting an `"IMG"`
element with a one-node range selection. -/
theorem onRightClick_dispatch_witness :
    onRightClick ⟨⟨"IMG", 1⟩, false⟩ (Selection.rangeSel ["a"]) =
      some ⟨⟨"IMG", 1⟩, false⟩ ∧
    registeredHandler Command.rightClickImage = registeredHandler Command.click :=
  ⟨(onRightClick_dispatch_condition ⟨⟨"IMG", 1⟩, false⟩ (Selection.rangeSel ["a"])).1.mpr
      ⟨by decide, by decide, by decide⟩,
   (onRightClick_dispatch_condition ⟨⟨"IMG", 1⟩, false⟩ (Selection.rangeSel ["a"])).2⟩

/-- Claim C8: when this node is selected and the current selection is a node
selection, and the node key belongs to an image node wherever it occurs in
the document, the delete/backspace handler removes the node — afterwards the
key no longer resolves while every other node survives; when the
preconditions do not both hold the document is unchanged. -/
theorem onDelete_removes_node_when_selected
    (k : String) (isSelected : Bool) (sel : Selection) (doc : List DocNode)
    (himg : ∀ n ∈ doc, n.key = k → n.isImage = true) :
    ((isSelected && isNodeSelection sel) = true →
      getNodeByKey k (onDelete k isSelected sel doc).doc = none ∧
      ∀ n ∈ doc, n.key ≠ k → n ∈ (onDelete k isSelected sel doc).doc) ∧
    ((isSelected && isNodeSelection sel) = false →
      (onDelete k isSelected sel doc).doc = doc) := by
  constructor
  · intro hc
    have hdoc : (onDelete k isSelected sel doc).doc =
        if isImageNode (getNodeByKey k doc) then removeNode k doc else doc := by
      simp [onDelete, hc]
    cases hfind : getNodeByKey k doc with
    | none =>
      rw [hdoc, hfind]
      exact ⟨by simpa [isImageNode] using hfind, fun n hn _ => by simpa [isImageNode, hfind]⟩
    | some n =>
      have hkey : n.key = k := by
        have := List.find?_some hfind
        simpa using this
      have hmem : n ∈ doc := List.mem_of_find?_eq_some hfind
      have himage : n.isImage = true := himg n hmem hkey
      have hif : isImageNode (getNodeByKey k doc) = true := by
        rw [hfind]; simpa [isImageNode] using himage
      rw [hdoc, hif]
      refine ⟨getNodeByKey_removeNode k doc, fun m hm hne => ?_⟩
      simp only [if_true]
      exact List.mem_filter.mpr ⟨hm, by simp [hne]⟩
  · intro hc
    simp [onDelete, hc]

/-- Witness for claim C8 on a two-node document whose `"a"` node is deleted
and whose `"b"` node survives. -/
theorem onDelete_removes_witness :
    getNodeByKey "a" (onDelete "a" true (Selection.nodeSel ["a"])
      [{ key := "a", isImage := true, width := .inherit, height := .inherit,
         showCaption := false },
       { key := "b", isImage := true, width := .inherit, height := .inherit,
         showCaption := false }]).doc = none :=
  ((onDelete_removes_node_when_selected "a" true (Selection.nodeSel ["a"])
      [{ key := "a", isImage := true, width := .inherit, height := .inherit,
         showCaption := false },
       { key := "b", isImage := true, width := .inherit, height := .inherit,
         showCaption := false }] (by decide)).1 (by decide)).1

/-- Claim C9: when the node key no longer resolves (`$getNodeByKey` returns
null because the node was deleted concurrently), the delete handler, the
`setShowCaption` mutation and the dimension commit of `onResizeEnd` all leave
the document unchanged; each embedding is a total function, so no exception
is raised. -/
theorem mutations_noop_when_node_unresolved
    (k : String) (isSelected : Bool) (sel : Selection) (w h : Dim)
    (timer : ResizeTimer) (doc : List DocNode)
    (hnone : getNodeByKey k doc = none) :
    (onDelete k isSelected sel doc).doc = doc ∧
    setShowCaption k doc = doc ∧
    (onResizeEnd k w h timer doc).2 = doc := by
  have h0 : isImageNode (getNodeByKey k doc) = false := by
    simp [hnone, isImageNode]
  refine ⟨?_, ?_, ?_⟩
  · unfold onDelete
    split <;> simp [h0]
  · unfold setShowCaption
    simp [h0]
  · unfold onResizeEnd
    simp [h0]

/-- Witness for claim C9 on a document that does not contain the key. -/
theorem mutations_noop_witness :
    (onDelete "a" true (Selection.nodeSel ["a"]) []).doc = [] ∧
    setShowCaption "a" [] = [] ∧
    (onResizeEnd "a" (Dim.px 300) (Dim.px 200) ⟨true, none⟩ []).2 = [] :=
  mutations_noop_when_node_unresolved "a" true (Selection.nodeSel ["a"])
    (Dim.px 300) (Dim.px 200) ⟨true, none⟩ [] (by decide)

/-- Claim C10: the delete/backspace handler always returns `false` to the
command bus, in particular also when it removed the node, and it calls
`event.preventDefault()` exactly when this node is selected and the current
selection is a node selection. -/
theorem onDelete_always_returns_false
    (k : String) (isSelected : Bool) (sel : Selection) (doc : List DocNode) :
    (onDelete k isSelected sel doc).handled = false ∧
    (onDelete k isSelected sel doc).preventDefault =
      (isSelected && isNodeSelection sel) := by
  unfold onDelete
  by_cases hc : (isSelected && isNodeSelection sel) = true <;> simp [hc]

end ImageComponent
